import Mathlib

/-!
Verification development for the pos-py backend (point-of-sale system).

The Python data-access and service layer (backend/app/models, repositories,
services) is shallowly embedded: each ORM row type becomes a structure, the
database becomes a record of row lists plus a fresh-identifier counter
(modelling uuid4 generation), each repository or service method becomes a
pure function over that record, and each eager commit is the returned
record. Decimal money columns (Numeric 10,2) become Rat, whose arithmetic
is exact on the operations the code performs; datetimes become Nat
instants; UUIDs become Nat identifiers.
-/

namespace POS

/-! ## Enumerations (shared/models/enums.py) -/

/-- StockStatus enumeration. -/
inductive StockStatus
  | available
  | low_stock
  | out_of_stock
  | discontinued
  deriving DecidableEq

/-- SaleStatus enumeration. -/
inductive SaleStatus
  | pending
  | completed
  | cancelled
  | refunded
  deriving DecidableEq

/-- ProductCategory enumeration. -/
inductive ProductCategory
  | dog_food | cat_food | bird_food | fish_food | reptile_food
  | dog_accessories | cat_accessories | bird_accessories
  | fish_accessories | reptile_accessories
  | toys | health_care | grooming | bedding | other
  deriving DecidableEq

/-- UserRole enumeration. -/
inductive UserRole
  | admin
  | manager
  | cashier
  | viewer
  deriving DecidableEq

/-! ## Row types (backend/app/models) -/

/-- products table row (models/product.py Product). -/
structure Product where
  id : Nat
  name : String
  description : Option String
  sku : String
  category : ProductCategory
  price : Rat
  cost_price : Option Rat
  image_url : Option String
  is_active : Bool
  created_at : Nat
  updated_at : Option Nat
  deriving DecidableEq

/-- stock table row (models/stock.py Stock). -/
structure Stock where
  id : Nat
  product_id : Nat
  stock_entry_id : Option Nat
  quantity : Int
  cost_price : Option Rat
  expiry_date : Option Nat
  status : StockStatus
  location : Option String
  created_at : Nat
  updated_at : Option Nat
  deriving DecidableEq

/-- sales table row (models/sale.py Sale). -/
structure Sale where
  id : Nat
  reference : String
  customer_name : Option String
  customer_email : Option String
  total_amount : Rat
  discount_amount : Rat
  tax_amount : Rat
  final_amount : Rat
  status : SaleStatus
  payment_method : Option String
  notes : Option String
  created_by : Nat
  created_at : Nat
  completed_at : Option Nat
  deriving DecidableEq

/-- sale_items table row (models/sale.py SaleItem). -/
structure SaleItem where
  id : Nat
  sale_id : Nat
  product_id : Nat
  quantity : Int
  unit_price : Rat
  discount_amount : Rat
  total_amount : Rat
  created_at : Nat
  deriving DecidableEq

/-- users table row (models/user.py User). -/
structure User where
  id : Nat
  email : String
  hashed_password : Option String
  full_name : Option String
  role : UserRole
  google_id : Option String
  is_active : Bool
  created_at : Nat
  updated_at : Option Nat
  deriving DecidableEq

/-- The relational store: one list per table, in insertion order, plus a
counter supplying fresh generated identifiers (modelling uuid4 defaults).
The stock_entries table is omitted: no verified operation reads or writes
StockEntry rows. -/
structure DB where
  users : List User
  products : List Product
  stock : List Stock
  sales : List Sale
  sale_items : List SaleItem
  nextId : Nat
  deriving DecidableEq

/-! ## Stock repository (backend/app/repositories/stock.py) -/

/-- StockRepository.get_by_product: select Stock where product_id matches. -/
def StockRepository.get_by_product (db : DB) (product_id : Nat) : List Stock :=
  db.stock.filter (fun s => decide (s.product_id = product_id))

/-- StockRepository.get_available_stock: select sum(quantity) where
product_id matches and status = AVAILABLE; a NULL sum (no rows) is 0. -/
def StockRepository.get_available_stock (db : DB) (product_id : Nat) : Int :=
  ((db.stock.filter (fun s =>
      decide (s.product_id = product_id ∧ s.status = StockStatus.available))).map
    (fun s => s.quantity)).sum

/-! ## Product repository (backend/app/repositories/product.py) -/

/-- BaseRepository.get instantiated at Product: select where id matches,
scalar_one_or_none. -/
def ProductRepository.get (db : DB) (id : Nat) : Option Product :=
  db.products.find? (fun p => decide (p.id = id))

/-- Containment of one character list in another, used to model the SQL
ilike pattern. -/
def charListContains (s pat : List Char) : Bool :=
  match s with
  | [] => pat.isEmpty
  | _ :: t => pat.isPrefixOf s || charListContains t pat

/-- Case-insensitive substring test: column ilike the pattern
wrapped in percent wildcards. -/
def ilikeAnywhere (column pat : String) : Bool :=
  charListContains column.toLower.toList pat.toLower.toList

/-- ProductRepository.search_products: name or sku ilike the query,
is_active only, offset and limit applied. -/
def ProductRepository.search_products (db : DB) (q : String) (skip limit : Nat) :
    List Product :=
  (((db.products.filter (fun p =>
      (ilikeAnywhere p.name q || ilikeAnywhere p.sku q) && p.is_active)).drop skip).take limit)

/-- ProductRepository.get_by_category: category matches, is_active only,
offset and limit applied. -/
def ProductRepository.get_by_category (db : DB) (category : ProductCategory)
    (skip limit : Nat) : List Product :=
  (((db.products.filter (fun p =>
      decide (p.category = category) && p.is_active)).drop skip).take limit)

/-- ProductRepository.get_active_products: is_active only, offset and limit
applied. The Python defaults are skip 0 and limit 20. -/
def ProductRepository.get_active_products (db : DB) (skip limit : Nat) : List Product :=
  (((db.products.filter (fun p => p.is_active)).drop skip).take limit)

/-! ## Stock service aggregation (backend/app/services/stock.py) -/

/-- StockService.get_available_stock: sum of quantity over every row of
stock_repo.get_by_product, with no status filter. -/
def StockService.get_available_stock (db : DB) (product_id : Nat) : Int :=
  ((StockRepository.get_by_product db product_id).map (fun s => s.quantity)).sum

/-- One element of the list StockService.get_low_stock_products returns. -/
structure LowStockEntry where
  product_id : Nat
  product_name : String
  sku : String
  available_stock : Int
  threshold : Int
  deriving DecidableEq

/-- StockService.get_low_stock_products: iterate product_repo.get_active_products
(called with its Python defaults, skip 0 and limit 20), keep each product whose
service-level available stock is at or below the threshold. -/
def StockService.get_low_stock_products (db : DB) (threshold : Int) : List LowStockEntry :=
  (ProductRepository.get_active_products db 0 20).filterMap (fun p =>
    let available_stock := StockService.get_available_stock db p.id
    if available_stock ≤ threshold then
      some { product_id := p.id, product_name := p.name, sku := p.sku,
             available_stock := available_stock, threshold := threshold }
    else none)

/-! ## Generic update (backend/app/repositories/base.py BaseRepository.update) -/

/-- BaseRepository.update: one UPDATE statement setting the supplied values
on every row whose id matches, returning the updated row (scalar_one_or_none,
modelled as the first match), committed immediately. Parameterized over the
entity row type, its id column and the application of a values clause, as the
Python class is parameterized over its model. A values clause that sets no
column is rejected: on an empty kwargs dict the call raises instead of
running, modelled by the error result. -/
def BaseRepository.update {α π : Type} (getId : α → Nat) (applyValues : α → π → α)
    (isEmptyValues : π → Bool) (rows : List α) (id : Nat) (values : π) :
    Except String (List α × Option α) :=
  if isEmptyValues values then
    Except.error
      "ArgumentError: update() requires at least one column in the values clause"
  else
    let rows2 := rows.map (fun r => if getId r = id then applyValues r values else r)
    Except.ok (rows2, rows2.find? (fun r => decide (getId r = id)))

/-- ProductUpdate schema (schemas/product.py): every field optional; the
outer Option is model_dump with exclude_unset (none means the field was not
supplied), the inner Option on nullable columns is an explicitly supplied
null. -/
structure ProductUpdate where
  name : Option String
  description : Option (Option String)
  sku : Option String
  category : Option ProductCategory
  price : Option Rat
  cost_price : Option (Option Rat)
  image_url : Option (Option String)
  is_active : Option Bool
  deriving DecidableEq

/-- The values clause of the UPDATE built from a ProductUpdate: each supplied
field overwrites the column, each absent field leaves it as it was. -/
def Product.applyValues (p : Product) (u : ProductUpdate) : Product :=
  { p with
    name := u.name.getD p.name,
    description := u.description.getD p.description,
    sku := u.sku.getD p.sku,
    category := u.category.getD p.category,
    price := u.price.getD p.price,
    cost_price := u.cost_price.getD p.cost_price,
    image_url := u.image_url.getD p.image_url,
    is_active := u.is_active.getD p.is_active }

/-- Whether a ProductUpdate supplies no field at all: model_dump with
exclude_unset then yields the empty kwargs dict. -/
def ProductUpdate.isEmptyValues (u : ProductUpdate) : Bool :=
  u.name.isNone && u.description.isNone && u.sku.isNone && u.category.isNone &&
    u.price.isNone && u.cost_price.isNone && u.image_url.isNone &&
    u.is_active.isNone

/-- BaseRepository.update instantiated at Product, as ProductService.update_product
invokes it. -/
def ProductRepository.update (db : DB) (id : Nat) (values : ProductUpdate) :
    Except String (DB × Option Product) :=
  (BaseRepository.update Product.id Product.applyValues
      ProductUpdate.isEmptyValues db.products id values).map
    (fun r => ({ db with products := r.1 }, r.2))

/-- A ProductUpdate supplying no field. -/
def ProductUpdate.empty : ProductUpdate :=
  { name := none, description := none, sku := none, category := none,
    price := none, cost_price := none, image_url := none, is_active := none }

/-- ProductService.update_product: apply only the supplied fields through the
repository update; a store failure propagates. -/
def ProductService.update_product (db : DB) (product_id : Nat)
    (values : ProductUpdate) : Except String (DB × Option Product) :=
  ProductRepository.update db product_id values

/-- ProductService.delete_product: soft delete, an update setting is_active
to false; true when a row was found. Its values clause always carries the
is_active column, so the empty-values failure cannot fire on this path. -/
def ProductService.delete_product (db : DB) (product_id : Nat) :
    Except String (DB × Bool) :=
  (ProductRepository.update db product_id
      { ProductUpdate.empty with is_active := some false }).map
    (fun r => (r.1, r.2.isSome))

/-! ## Sale creation (backend/app/services/sale.py, repositories/sale.py) -/

/-- One element of the untyped items list of the SaleCreate payload. The
service reads its product_id, quantity and unit_price; the discount_amount
key of the wire schema (schemas/sale.py SaleItemCreate) is carried but never
read by SaleService.create_sale. -/
structure SaleItemInput where
  product_id : Nat
  quantity : Int
  unit_price : Rat
  discount_amount : Rat
  deriving DecidableEq

/-- SaleCreate schema (schemas/sale.py). -/
structure SaleCreate where
  items : List SaleItemInput
  payment_method : String
  total_amount : Rat
  reference : Option String
  customer_name : Option String
  customer_email : Option String
  discount_amount : Rat
  tax_amount : Rat
  final_amount : Option Rat
  status : SaleStatus
  notes : Option String
  deriving DecidableEq

/-- The reference SaleService.create_sale synthesizes when none is supplied:
the SALE- prefix followed by the current timestamp (the strftime second-level
rendering is modelled by the decimal rendering of the instant). -/
def saleReference (now : Nat) : String :=
  "SALE-" ++ toString now

/-- BaseRepository.create instantiated at Sale: insert the row with a
generated id, commit, return the persisted row. The created_by column holds
the authenticated caller, so its foreign key holds by construction. -/
def SaleRepository.createRow (db : DB) (reference : String)
    (customer_name customer_email : Option String)
    (total_amount discount_amount tax_amount final_amount : Rat)
    (status : SaleStatus) (payment_method notes : Option String)
    (created_by now : Nat) : DB × Sale :=
  let sale : Sale :=
    { id := db.nextId, reference := reference,
      customer_name := customer_name, customer_email := customer_email,
      total_amount := total_amount, discount_amount := discount_amount,
      tax_amount := tax_amount, final_amount := final_amount,
      status := status, payment_method := payment_method, notes := notes,
      created_by := created_by, created_at := now, completed_at := none }
  ({ db with sales := db.sales ++ [sale], nextId := db.nextId + 1 }, sale)

/-- BaseRepository.create instantiated at SaleItem: the store enforces the
foreign key of sale_items.product_id into products, so the insert fails when
the referenced product does not exist; otherwise the row is inserted with the
discount_amount column at its default 0 (create_sale supplies no discount)
and committed. -/
def SaleItemRepository.createRow (db : DB) (sale_id product_id : Nat)
    (quantity : Int) (unit_price total_amount : Rat) (now : Nat) :
    Except String DB :=
  if (db.products.find? (fun p => decide (p.id = product_id))).isSome then
    Except.ok { db with
      sale_items := db.sale_items ++ [{
        id := db.nextId, sale_id := sale_id, product_id := product_id,
        quantity := quantity, unit_price := unit_price,
        discount_amount := 0, total_amount := total_amount,
        created_at := now }],
      nextId := db.nextId + 1 }
  else Except.error "ForeignKeyViolation: sale_items.product_id"

/-- The item-creation loop of SaleService.create_sale: each line item is
committed on its own; a failure aborts the loop, leaving every earlier commit
in place (there is no enclosing transaction). Each stored total_amount is
unit_price times quantity. -/
def createSaleItems (db : DB) (sale_id : Nat) (items : List SaleItemInput)
    (now : Nat) : DB × Option String :=
  match items with
  | [] => (db, none)
  | item :: rest =>
    match SaleItemRepository.createRow db sale_id item.product_id item.quantity
        item.unit_price (item.unit_price * item.quantity) now with
    | Except.error e => (db, some e)
    | Except.ok db2 => createSaleItems db2 sale_id rest now

/-- The payload SaleService.create_sale returns on success: the persisted
sale merged with the items list as the caller provided it. -/
structure SaleResult where
  id : Nat
  reference : String
  customer_name : Option String
  customer_email : Option String
  total_amount : Rat
  discount_amount : Rat
  tax_amount : Rat
  final_amount : Rat
  status : SaleStatus
  payment_method : Option String
  notes : Option String
  created_by : Nat
  created_at : Nat
  completed_at : Option Nat
  items : List SaleItemInput
  deriving DecidableEq

/-- SaleService.create_sale: synthesize the reference when absent, default
final_amount to total_amount when absent, commit the Sale row, then commit
one SaleItem row per input item; a raised item failure propagates, leaving
the already committed rows behind. Returns the resulting store together with
the outcome. -/
def SaleService.create_sale (db : DB) (sale_data : SaleCreate)
    (user_id now : Nat) : DB × Except String SaleResult :=
  let reference := sale_data.reference.getD (saleReference now)
  let final_amount := sale_data.final_amount.getD sale_data.total_amount
  let r1 := SaleRepository.createRow db reference
    sale_data.customer_name sale_data.customer_email
    sale_data.total_amount sale_data.discount_amount sale_data.tax_amount
    final_amount sale_data.status sale_data.payment_method sale_data.notes
    user_id now
  let r2 := createSaleItems r1.1 r1.2.id sale_data.items now
  match r2.2 with
  | some e => (r2.1, Except.error e)
  | none =>
    (r2.1, Except.ok {
      id := r1.2.id, reference := r1.2.reference,
      customer_name := r1.2.customer_name, customer_email := r1.2.customer_email,
      total_amount := r1.2.total_amount, discount_amount := r1.2.discount_amount,
      tax_amount := r1.2.tax_amount, final_amount := r1.2.final_amount,
      status := r1.2.status, payment_method := r1.2.payment_method,
      notes := r1.2.notes, created_by := r1.2.created_by,
      created_at := r1.2.created_at, completed_at := r1.2.completed_at,
      items := sale_data.items })

/-! ## Sales totals (backend/app/repositories/sale.py) -/

/-- The date window of get_total_sales_amount: each bound filters only when
supplied, both bounds inclusive. -/
def dateInRange (start_date end_date : Option Nat) (t : Nat) : Bool :=
  (match start_date with | none => true | some d => decide (d ≤ t)) &&
  (match end_date with | none => true | some d => decide (t ≤ d))

/-- SaleRepository.get_total_sales_amount: select sum(final_amount) with the
optional created_at bounds and no other filter; a NULL sum (no rows) is 0. -/
def SaleRepository.get_total_sales_amount (db : DB)
    (start_date end_date : Option Nat) : Rat :=
  ((db.sales.filter (fun s => dateInRange start_date end_date s.created_at)).map
    (fun s => s.final_amount)).sum

/-- SaleService.get_total_sales_amount: delegates to the repository. -/
def SaleService.get_total_sales_amount (db : DB)
    (start_date end_date : Option Nat) : Rat :=
  SaleRepository.get_total_sales_amount db start_date end_date

/-! ## Stock creation (backend/app/services/stock.py, repositories/stock.py) -/

/-- StockCreate schema (schemas/stock.py). -/
structure StockCreate where
  product_id : Nat
  stock_entry_id : Option Nat
  quantity : Int
  cost_price : Option Rat
  expiry_date : Option Nat
  status : StockStatus
  location : Option String
  deriving DecidableEq

/-- BaseRepository.create instantiated at Stock: insert the row with a
generated id and the model defaults, commit, return the persisted row. -/
def StockRepository.createRow (db : DB) (sd : StockCreate) (now : Nat) : DB × Stock :=
  let stock : Stock :=
    { id := db.nextId, product_id := sd.product_id,
      stock_entry_id := sd.stock_entry_id, quantity := sd.quantity,
      cost_price := sd.cost_price, expiry_date := sd.expiry_date,
      status := sd.status, location := sd.location,
      created_at := now, updated_at := none }
  ({ db with stock := db.stock ++ [stock], nextId := db.nextId + 1 }, stock)

/-- A JSON-serializable value of the dict payloads the stock service
returns. -/
inductive DictVal
  | str : String → DictVal
  | int : Int → DictVal
  | null : DictVal
  deriving DecidableEq

/-- An optional string rendered the way the response serializes it. -/
def DictVal.ofOptStr : Option String → DictVal
  | none => DictVal.null
  | some s => DictVal.str s

/-- The wire name of a StockStatus value. -/
def StockStatus.text : StockStatus → String
  | StockStatus.available => "available"
  | StockStatus.low_stock => "low_stock"
  | StockStatus.out_of_stock => "out_of_stock"
  | StockStatus.discontinued => "discontinued"

/-- StockService.create_stock_entry: require the referenced product to exist
(else the ValueError Product not found), create the stock row, return the
dict without a status key. The user_id argument is accepted and never
used. -/
def StockService.create_stock_entry (db : DB) (sd : StockCreate)
    (user_id now : Nat) : Except String (DB × List (String × DictVal)) :=
  let _ := user_id
  match ProductRepository.get db sd.product_id with
  | none => Except.error "Product not found"
  | some product =>
    let r := StockRepository.createRow db sd now
    Except.ok (r.1, [
      ("id", DictVal.str (toString r.2.id)),
      ("product_id", DictVal.str (toString r.2.product_id)),
      ("product_name", DictVal.str product.name),
      ("quantity", DictVal.int r.2.quantity),
      ("location", DictVal.ofOptStr r.2.location),
      ("created_at", DictVal.str (toString r.2.created_at))])

/-- StockService.create_stock: require the referenced product to exist (else
the ValueError Product not found), create the stock row, return the dict,
which additionally carries the status key. -/
def StockService.create_stock (db : DB) (sd : StockCreate)
    (now : Nat) : Except String (DB × List (String × DictVal)) :=
  match ProductRepository.get db sd.product_id with
  | none => Except.error "Product not found"
  | some product =>
    let r := StockRepository.createRow db sd now
    Except.ok (r.1, [
      ("id", DictVal.str (toString r.2.id)),
      ("product_id", DictVal.str (toString r.2.product_id)),
      ("product_name", DictVal.str product.name),
      ("quantity", DictVal.int r.2.quantity),
      ("location", DictVal.ofOptStr r.2.location),
      ("status", DictVal.str (StockStatus.text r.2.status)),
      ("created_at", DictVal.str (toString r.2.created_at))])

/-! ## Authentication (backend/app/services/auth.py, repositories/user.py) -/

/-- UserRepository.get_by_email: select where email matches,
scalar_one_or_none. -/
def UserRepository.get_by_email (db : DB) (email : String) : Option User :=
  db.users.find? (fun u => decide (u.email = email))

/-- Modelled from the spec: core/security.py is not under src (only its
callers are). The spec describes password hashing and verification as the
hash of the plain password stored and checked; hashing is modelled as an
injective tagging of the password. -/
def get_password_hash (password : String) : String :=
  "bcrypt$" ++ password

/-- Modelled from the spec: core/security.py verify_password, true exactly
when the stored hash is the hash of the plain password. -/
def verify_password (plain_password hashed_password : String) : Bool :=
  hashed_password == get_password_hash plain_password

/-- The user payload AuthService.authenticate_user returns on success. -/
structure AuthResult where
  id : String
  email : String
  role : UserRole
  full_name : Option String
  deriving DecidableEq

/-- AuthService.authenticate_user: returns none when the email is unknown,
when the account has no password set (a missing or empty hash, both falsy in
the source), when the password does not verify, or when the account is
inactive; otherwise the user payload. -/
def AuthService.authenticate_user (db : DB) (email password : String) :
    Option AuthResult :=
  match UserRepository.get_by_email db email with
  | none => none
  | some user =>
    match user.hashed_password with
    | none => none
    | some hp =>
      if hp.isEmpty then none
      else if ! verify_password password hp then none
      else if ! user.is_active then none
      else some { id := toString user.id, email := user.email,
                  role := user.role, full_name := user.full_name }

/-! ## Concrete fixtures -/

/-- An empty store. -/
def DB.empty : DB :=
  { users := [], products := [], stock := [], sales := [], sale_items := [],
    nextId := 1 }

/-- An active product row with neutral optional fields. -/
def mkProduct (id : Nat) (name sku : String) : Product :=
  { id := id, name := name, description := none, sku := sku,
    category := ProductCategory.other, price := 0, cost_price := none,
    image_url := none, is_active := true, created_at := 0, updated_at := none }

/-- A stock row with neutral optional fields. -/
def mkStock (id product_id : Nat) (quantity : Int) (status : StockStatus) : Stock :=
  { id := id, product_id := product_id, stock_entry_id := none,
    quantity := quantity, cost_price := none, expiry_date := none,
    status := status, location := none, created_at := 0, updated_at := none }

/-- Store for C1: product 1 whose only stock row has quantity 5 and status
discontinued. -/
def dbC1 : DB :=
  { DB.empty with
    products := [mkProduct 1 "Dog Leash" "LEASH-1"],
    stock := [mkStock 10 1 5 StockStatus.discontinued] }

/-- C1: the claim says StockService.get_available_stock returns the sum of
the quantities of exactly the available-status rows of the product. On a
store whose only stock row for product 1 has quantity 5 and status
discontinued, the service returns 5 — it sums every row of the product with
no status filter — while the status-filtered sum, as computed by
StockRepository.get_available_stock, is 0. The service-level code path
contradicts the claim. -/
theorem c1_service_sum_ignores_status :
    StockService.get_available_stock dbC1 1 = 5 ∧
    StockRepository.get_available_stock dbC1 1 = 0 := by
  exact ⟨rfl, rfl⟩

/-- Store for C2: only product 1 exists. -/
def dbC2 : DB :=
  { DB.empty with products := [mkProduct 1 "Cat Tree" "TREE-1"], nextId := 50 }

/-- Sale request for C2: two line items, the second referencing product 99,
which does not exist, so its insert fails. -/
def saleReqC2 : SaleCreate :=
  { items := [
      { product_id := 1, quantity := 2, unit_price := 10, discount_amount := 0 },
      { product_id := 99, quantity := 1, unit_price := 5, discount_amount := 0 }],
    payment_method := "cash", total_amount := 25, reference := none,
    customer_name := none, customer_email := none, discount_amount := 0,
    tax_amount := 0, final_amount := none, status := SaleStatus.pending,
    notes := none }

/-- C2: the claim says sale creation is atomic — when a line item fails, no
Sale row and no SaleItem row persist. In the code each row is committed on
its own: on a request whose second item references a missing product, the
creation fails, yet the Sale row and the first SaleItem row remain in the
store. -/
theorem c2_sale_persists_after_item_failure :
    (SaleService.create_sale dbC2 saleReqC2 7 1000).2 =
      Except.error "ForeignKeyViolation: sale_items.product_id" ∧
    (SaleService.create_sale dbC2 saleReqC2 7 1000).1.sales.length = 1 ∧
    (SaleService.create_sale dbC2 saleReqC2 7 1000).1.sale_items.length = 1 := by
  exact ⟨rfl, rfl, rfl⟩

/-- Store for C4: only product 1 exists. -/
def dbC4 : DB :=
  { DB.empty with products := [mkProduct 1 "Bird Cage" "CAGE-1"], nextId := 30 }

/-- Sale request for C4: total 10, discount 2, tax 1, no final_amount
supplied. -/
def saleReqC4 : SaleCreate :=
  { items := [
      { product_id := 1, quantity := 1, unit_price := 10, discount_amount := 0 }],
    payment_method := "card", total_amount := 10, reference := none,
    customer_name := none, customer_email := none, discount_amount := 2,
    tax_amount := 1, final_amount := none, status := SaleStatus.pending,
    notes := none }

/-- C4 counterexample: the claim says a sale created without an overridden
final amount persists final_amount = total minus discount plus tax. On a
request with total 10, discount 2, tax 1 and no final_amount, the persisted
final_amount is 10 (the code defaults it to total_amount), not 10 - 2 + 1
= 9. -/
theorem c4_counterexample :
    saleReqC4.final_amount = none ∧
    (SaleService.create_sale dbC4 saleReqC4 7 1000).1.sales.map
      Sale.final_amount = [10] ∧
    saleReqC4.total_amount - saleReqC4.discount_amount + saleReqC4.tax_amount = 9 ∧
    (10 : Rat) ≠ 9 := by
  refine ⟨rfl, rfl, by norm_num [saleReqC4], by norm_num⟩

/-- Store for C5: 21 active products, no stock rows at all. -/
def dbC5 : DB :=
  { DB.empty with
    products := (List.range 21).map (fun i => mkProduct i "Pet Item" "ITEM") }

/-- C5 counterexample: the claim says get_low_stock_products considers every
active product. The code reads get_active_products with its defaults, skip 0
and limit 20: on a store with 21 active products, all with available stock
0 at or below the threshold 10, only 20 entries come back and the 21st
product (id 20) is absent from the result. -/
theorem c5_counterexample :
    dbC5.products.all (fun p => p.is_active) = true ∧
    (dbC5.products.map Product.id).contains 20 = true ∧
    StockService.get_available_stock dbC5 20 ≤ 10 ∧
    (StockService.get_low_stock_products dbC5 10).length = 20 ∧
    ((StockService.get_low_stock_products dbC5 10).map
      LowStockEntry.product_id).contains 20 = false := by
  refine ⟨by decide, by decide, by decide, rfl, by decide⟩

/-- Store for C8: only product 1 exists. -/
def dbC8 : DB :=
  { DB.empty with products := [mkProduct 1 "Fish Tank" "TANK-1"], nextId := 40 }

/-- Stock request for C8. -/
def stockReqC8 : StockCreate :=
  { product_id := 1, stock_entry_id := none, quantity := 50, cost_price := none,
    expiry_date := none, status := StockStatus.available,
    location := some "warehouse" }

/-- C8 counterexample: the claim says create_stock and create_stock_entry
return the same result on the same input. On a store holding product 1 and
a valid request, both persist the same row (the resulting stores are equal)
yet the returned payloads differ: create_stock additionally carries the
status key. -/
theorem c8_counterexample :
    (StockService.create_stock_entry dbC8 stockReqC8 7 100).toOption.map Prod.fst =
      (StockService.create_stock dbC8 stockReqC8 100).toOption.map Prod.fst ∧
    (StockService.create_stock_entry dbC8 stockReqC8 7 100).toOption.map Prod.snd ≠
      (StockService.create_stock dbC8 stockReqC8 100).toOption.map Prod.snd := by
  refine ⟨rfl, by decide⟩

/-! ## Lemmas on sale creation -/

/-- Inversion of a successful SaleItem insert: the other tables are
untouched and exactly one row, carrying the supplied values and the
discount default 0, is appended. -/
lemma createRow_ok_fields (db : DB) (sid pid : Nat) (q : Int) (up ta : Rat)
    (now : Nat) (db2 : DB)
    (h : SaleItemRepository.createRow db sid pid q up ta now = Except.ok db2) :
    db2.sales = db.sales ∧ db2.products = db.products ∧
    db2.sale_items = db.sale_items ++ [{
      id := db.nextId, sale_id := sid, product_id := pid, quantity := q,
      unit_price := up, discount_amount := 0, total_amount := ta,
      created_at := now }] := by
  unfold SaleItemRepository.createRow at h
  split at h
  · injection h with h2
    subst h2
    exact ⟨rfl, rfl, rfl⟩
  · exact Except.noConfusion h

/-- The item-creation loop leaves sales and products untouched, and every
sale_items row it leaves behind either predates the loop or stores
discount 0 and total equal to unit price times quantity. -/
lemma createSaleItems_frame (db : DB) (sale_id : Nat)
    (items : List SaleItemInput) (now : Nat) :
    (createSaleItems db sale_id items now).1.sales = db.sales ∧
    (createSaleItems db sale_id items now).1.products = db.products ∧
    (∀ it ∈ (createSaleItems db sale_id items now).1.sale_items,
      it ∈ db.sale_items ∨
        (it.discount_amount = 0 ∧
         it.total_amount = it.unit_price * it.quantity)) := by
  induction items generalizing db with
  | nil => exact ⟨rfl, rfl, fun it h => Or.inl h⟩
  | cons item rest ih =>
    cases hcr : SaleItemRepository.createRow db sale_id item.product_id
        item.quantity item.unit_price (item.unit_price * item.quantity) now with
    | error e =>
      unfold createSaleItems
      rw [hcr]
      exact ⟨rfl, rfl, fun it h => Or.inl h⟩
    | ok db2 =>
      unfold createSaleItems
      rw [hcr]
      obtain ⟨hs, hp, hi⟩ := ih db2
      obtain ⟨h2s, h2p, h2i⟩ := createRow_ok_fields db sale_id item.product_id
        item.quantity item.unit_price (item.unit_price * item.quantity) now db2 hcr
      refine ⟨hs.trans h2s, hp.trans h2p, fun it h => ?_⟩
      rcases hi it h with h3 | h3
      · rw [h2i] at h3
        rcases List.mem_append.mp h3 with h4 | h4
        · exact Or.inl h4
        · rw [List.mem_singleton] at h4
          subst h4
          exact Or.inr ⟨rfl, rfl⟩
      · exact Or.inr h3

/-- The Sale row create_sale persists: generated id, synthesized reference
when absent, final_amount defaulted to total_amount when absent. -/
def saleRowOf (db : DB) (sd : SaleCreate) (uid now : Nat) : Sale :=
  { id := db.nextId, reference := sd.reference.getD (saleReference now),
    customer_name := sd.customer_name, customer_email := sd.customer_email,
    total_amount := sd.total_amount, discount_amount := sd.discount_amount,
    tax_amount := sd.tax_amount,
    final_amount := sd.final_amount.getD sd.total_amount,
    status := sd.status, payment_method := sd.payment_method,
    notes := sd.notes, created_by := uid, created_at := now,
    completed_at := none }

/-- The store create_sale returns, on success and on failure alike, is the
store after the Sale commit followed by the item loop. -/
lemma create_sale_db (db : DB) (sd : SaleCreate) (uid now : Nat) :
    (SaleService.create_sale db sd uid now).1 =
      (createSaleItems
        { db with
          sales := db.sales ++ [saleRowOf db sd uid now],
          nextId := db.nextId + 1 }
        db.nextId sd.items now).1 := by
  simp only [SaleService.create_sale, SaleRepository.createRow, saleRowOf]
  split <;> rfl

/-- C3: every SaleItem row persisted by SaleService.create_sale (each row of
the resulting store that was not already present) stores
total_amount = unit_price times quantity minus its discount_amount — the
loop computes unit_price times quantity and leaves the discount column at
its default 0. -/
theorem c3_sale_item_total_amount (db : DB) (sale_data : SaleCreate)
    (user_id now : Nat) (it : SaleItem)
    (hmem : it ∈ (SaleService.create_sale db sale_data user_id now).1.sale_items) :
    it ∈ db.sale_items ∨
      it.total_amount = it.unit_price * it.quantity - it.discount_amount := by
  rw [create_sale_db] at hmem
  have h := (createSaleItems_frame
    { db with
      sales := db.sales ++ [saleRowOf db sale_data user_id now],
      nextId := db.nextId + 1 }
    db.nextId sale_data.items now).2.2 it hmem
  rcases h with h | ⟨h0, h1⟩
  · exact Or.inl h
  · rw [h1, h0, sub_zero]
    exact Or.inr rfl

/-- The SaleItem row the loop stores for the single item of saleReqC4 on
dbC4. -/
def itemC3W : SaleItem :=
  { id := 31, sale_id := 30, product_id := 1, quantity := 1, unit_price := 10,
    discount_amount := 0, total_amount := 10 * ((1 : Int) : Rat),
    created_at := 1000 }

/-- C3 witness: the theorem applied to the concrete run of create_sale on
dbC4 and the row it persists. -/
theorem c3_sale_item_total_amount_witness :
    itemC3W ∈ dbC4.sale_items ∨
      itemC3W.total_amount =
        itemC3W.unit_price * itemC3W.quantity - itemC3W.discount_amount :=
  c3_sale_item_total_amount dbC4 saleReqC4 7 1000 itemC3W
    (List.mem_singleton.mpr rfl)

/-- C4 amended: every Sale row persisted by create_sale from a request with
no supplied final_amount stores final_amount equal to the supplied
total_amount (not total minus discount plus tax). -/
theorem c4_final_defaults_to_total (db : DB) (sale_data : SaleCreate)
    (user_id now : Nat) (hfa : sale_data.final_amount = none)
    (s : Sale)
    (hs : s ∈ (SaleService.create_sale db sale_data user_id now).1.sales) :
    s ∈ db.sales ∨ s.final_amount = sale_data.total_amount := by
  rw [create_sale_db] at hs
  rw [(createSaleItems_frame _ _ _ _).1] at hs
  rcases List.mem_append.mp hs with h | h
  · exact Or.inl h
  · rw [List.mem_singleton] at h
    subst h
    right
    simp [saleRowOf, hfa]

/-- The Sale row create_sale persists for saleReqC4 on dbC4. -/
def saleC4W : Sale := saleRowOf dbC4 saleReqC4 7 1000

/-- C4 witness: the amended theorem applied to the concrete run of
create_sale on dbC4. -/
theorem c4_final_defaults_to_total_witness :
    saleC4W ∈ dbC4.sales ∨ saleC4W.final_amount = saleReqC4.total_amount :=
  c4_final_defaults_to_total dbC4 saleReqC4 7 1000 rfl saleC4W (by decide)

/-! ## Low-stock listing (C5) -/

/-- C5 amended: get_low_stock_products returns exactly those of the first
page of active products (the Python defaults skip 0, limit 20) whose
service-level available stock — the sum over all of the product's stock
rows regardless of status — is at or below the threshold. -/
theorem c5_low_stock_membership (db : DB) (threshold : Int) (e : LowStockEntry) :
    e ∈ StockService.get_low_stock_products db threshold ↔
      ∃ p, p ∈ ProductRepository.get_active_products db 0 20 ∧
        StockService.get_available_stock db p.id ≤ threshold ∧
        e = { product_id := p.id, product_name := p.name, sku := p.sku,
              available_stock := StockService.get_available_stock db p.id,
              threshold := threshold } := by
  simp only [StockService.get_low_stock_products, List.mem_filterMap]
  constructor
  · rintro ⟨p, hp, he⟩
    by_cases hle : StockService.get_available_stock db p.id ≤ threshold
    · rw [if_pos hle] at he
      injection he with he
      exact ⟨p, hp, hle, he.symm⟩
    · rw [if_neg hle] at he
      exact Option.noConfusion he
  · rintro ⟨p, hp, hle, he⟩
    refine ⟨p, hp, ?_⟩
    rw [if_pos hle]
    exact (congrArg some he).symm

/-! ## Soft delete and partial update (C6, C9) -/

/-- Looking an id up after an id-keyed in-place map: updating the matching
rows with an id-preserving function commutes with find?. -/
lemma find?_map_update {α : Type} (getId : α → Nat) (g : α → α)
    (hg : ∀ r, getId (g r) = getId r) (rows : List α) (id : Nat) :
    (rows.map (fun r => if getId r = id then g r else r)).find?
        (fun r => decide (getId r = id)) =
      (rows.find? (fun r => decide (getId r = id))).map g := by
  induction rows with
  | nil => rfl
  | cons r t ih =>
    by_cases h : getId r = id
    · simp only [List.map_cons, if_pos h, List.find?_cons]
      simp [hg, h]
    · simp only [List.map_cons, if_neg h, List.find?_cons]
      simp [h, ih]

/-- A row of the store after the soft-delete update that is still active
cannot carry the deleted id: every row with that id had its flag set to
false. -/
lemma delete_product_active_ne (db : DB) (product_id : Nat) (p : Product)
    (hmem : p ∈ db.products.map (fun r =>
      if r.id = product_id then
        Product.applyValues r { ProductUpdate.empty with is_active := some false }
      else r))
    (hact : p.is_active = true) : p.id ≠ product_id := by
  obtain ⟨r, hr, hfr⟩ := List.mem_map.mp hmem
  by_cases h : r.id = product_id
  · rw [if_pos h] at hfr
    rw [← hfr] at hact
    simp [Product.applyValues, ProductUpdate.empty] at hact
  · rw [if_neg h] at hfr
    rw [← hfr]
    exact h

/-- C6: deleting a product flips its active flag in place: the operation
reports success, the row disappears from every get_active_products,
search_products and get_by_category page, a direct get still resolves the
id — to the same row with is_active false — and the sales, stock and
sale_items tables are untouched. -/
theorem c6_soft_delete (db : DB) (product_id : Nat) (p0 : Product)
    (hp : ProductRepository.get db product_id = some p0) :
    ∃ db2, ProductService.delete_product db product_id =
        Except.ok (db2, true) ∧
      ProductRepository.get db2 product_id =
        some { p0 with is_active := false } ∧
      (∀ skip limit p,
        p ∈ ProductRepository.get_active_products db2 skip limit →
          p.id ≠ product_id) ∧
      (∀ q skip limit p,
        p ∈ ProductRepository.search_products db2 q skip limit →
          p.id ≠ product_id) ∧
      (∀ c skip limit p,
        p ∈ ProductRepository.get_by_category db2 c skip limit →
          p.id ≠ product_id) ∧
      db2.sales = db.sales ∧ db2.stock = db.stock ∧
      db2.sale_items = db.sale_items := by
  have hfind := find?_map_update Product.id
    (fun r => Product.applyValues r
      { ProductUpdate.empty with is_active := some false })
    (fun r => rfl) db.products product_id
  have hsome : (db.products.map (fun r =>
      if r.id = product_id then
        Product.applyValues r { ProductUpdate.empty with is_active := some false }
      else r)).find? (fun r => decide (r.id = product_id)) =
      some (Product.applyValues p0
        { ProductUpdate.empty with is_active := some false }) := by
    rw [hfind]
    rw [show db.products.find? (fun r => decide (r.id = product_id)) =
      some p0 from hp]
    rfl
  have heq : ProductService.delete_product db product_id =
      Except.ok
        ({ db with
           products := db.products.map (fun r =>
             if r.id = product_id then
               Product.applyValues r
                 { ProductUpdate.empty with is_active := some false }
             else r) },
         ((db.products.map (fun r =>
            if r.id = product_id then
              Product.applyValues r
                { ProductUpdate.empty with is_active := some false }
            else r)).find? (fun r => decide (r.id = product_id))).isSome) := rfl
  rw [hsome] at heq
  refine ⟨_, heq, ?_, ?_, ?_, ?_, rfl, rfl, rfl⟩
  · show (db.products.map (fun r =>
      if r.id = product_id then
        Product.applyValues r { ProductUpdate.empty with is_active := some false }
      else r)).find? (fun r => decide (r.id = product_id)) =
      some { p0 with is_active := false }
    rw [hsome]
    exact rfl
  · intro skip limit p hmem
    have h2 := List.mem_of_mem_drop (List.mem_of_mem_take hmem)
    have h3 := List.mem_filter.mp h2
    exact delete_product_active_ne db product_id p h3.1 h3.2
  · intro q skip limit p hmem
    have h2 := List.mem_of_mem_drop (List.mem_of_mem_take hmem)
    have h3 := List.mem_filter.mp h2
    have h4 := (Bool.and_eq_true _ _).mp h3.2
    exact delete_product_active_ne db product_id p h3.1 h4.2
  · intro c skip limit p hmem
    have h2 := List.mem_of_mem_drop (List.mem_of_mem_take hmem)
    have h3 := List.mem_filter.mp h2
    have h4 := (Bool.and_eq_true _ _).mp h3.2
    exact delete_product_active_ne db product_id p h3.1 h4.2

/-- Store for the C6 witness: one product, id 3. -/
def dbC6 : DB :=
  { DB.empty with products := [mkProduct 3 "Reptile Lamp" "LAMP-3"] }

/-- C6 witness: the theorem applied to the concrete store dbC6 and its
product 3. -/
theorem c6_soft_delete_witness :
    ∃ db2, ProductService.delete_product dbC6 3 = Except.ok (db2, true) ∧
      ProductRepository.get db2 3 =
        some { mkProduct 3 "Reptile Lamp" "LAMP-3" with is_active := false } ∧
      (∀ skip limit p,
        p ∈ ProductRepository.get_active_products db2 skip limit → p.id ≠ 3) ∧
      (∀ q skip limit p,
        p ∈ ProductRepository.search_products db2 q skip limit → p.id ≠ 3) ∧
      (∀ c skip limit p,
        p ∈ ProductRepository.get_by_category db2 c skip limit → p.id ≠ 3) ∧
      db2.sales = dbC6.sales ∧ db2.stock = dbC6.stock ∧
      db2.sale_items = dbC6.sale_items :=
  c6_soft_delete dbC6 3 (mkProduct 3 "Reptile Lamp" "LAMP-3") rfl

/-! ## Uniform authentication failure (C7) -/

/-- C7: authenticate_user returns the identical failure value — an absent
result — in all four failure cases: unknown email, account with no password
set (a missing or empty hash, both falsy in the source), password that does
not verify, inactive account. No returned value distinguishes the cases. -/
theorem c7_auth_uniform_failure (db : DB) (email password : String)
    (h : UserRepository.get_by_email db email = none ∨
      ∃ u, UserRepository.get_by_email db email = some u ∧
        (u.hashed_password = none ∨ u.hashed_password = some "" ∨
         (∀ hp, u.hashed_password = some hp →
            verify_password password hp = false) ∨
         u.is_active = false)) :
    AuthService.authenticate_user db email password = none := by
  rcases h with h | ⟨u, hu, hc⟩
  · simp only [AuthService.authenticate_user, h]
  · rcases hc with h1 | h1 | h1 | h1
    · simp only [AuthService.authenticate_user, hu, h1]
    · simp only [AuthService.authenticate_user, hu, h1]
      rfl
    · cases hhp : u.hashed_password with
      | none => simp only [AuthService.authenticate_user, hu, hhp]
      | some hp =>
        have hv := h1 hp hhp
        simp only [AuthService.authenticate_user, hu, hhp, hv]
        by_cases he : hp.isEmpty
        · rw [if_pos he]
        · rw [if_neg he]
          simp [hv]
    · cases hhp : u.hashed_password with
      | none => simp only [AuthService.authenticate_user, hu, hhp]
      | some hp =>
        simp only [AuthService.authenticate_user, hu, hhp]
        by_cases he : hp.isEmpty
        · rw [if_pos he]
        · rw [if_neg he]
          by_cases hv : verify_password password hp
          · simp [hv, h1]
          · simp [hv]

/-- C7 witness: the theorem applied to an empty store, where the email is
unknown. -/
theorem c7_auth_uniform_failure_witness :
    AuthService.authenticate_user DB.empty "nobody@shop.example" "pw" = none :=
  c7_auth_uniform_failure DB.empty "nobody@shop.example" "pw" (Or.inl rfl)

/-! ## Equivalence of the two stock-creation paths (C8) -/

/-- Drop every entry of a payload carrying the given key. -/
def eraseKey (k : String) (l : List (String × DictVal)) :
    List (String × DictVal) :=
  l.filter (fun kv => ! (kv.1 == k))

/-- C8 amended: create_stock_entry and create_stock fail alike — with the
domain error Product not found exactly when the referenced product does not
exist — and on success persist the same Stock row (the resulting stores are
equal); the returned payloads agree once the status key, which only
create_stock carries, is dropped. -/
theorem c8_create_stock_equivalence (db : DB) (sd : StockCreate)
    (user_id now : Nat) :
    (StockService.create_stock_entry db sd user_id now =
        Except.error "Product not found" ↔
      ProductRepository.get db sd.product_id = none) ∧
    (StockService.create_stock db sd now = Except.error "Product not found" ↔
      ProductRepository.get db sd.product_id = none) ∧
    (StockService.create_stock_entry db sd user_id now).toOption.map Prod.fst =
      (StockService.create_stock db sd now).toOption.map Prod.fst ∧
    (StockService.create_stock_entry db sd user_id now).toOption.map
        (fun r => eraseKey "status" r.2) =
      (StockService.create_stock db sd now).toOption.map
        (fun r => eraseKey "status" r.2) := by
  cases hg : ProductRepository.get db sd.product_id with
  | none =>
    refine ⟨?_, ?_, ?_, ?_⟩ <;>
      · simp only [StockService.create_stock_entry, StockService.create_stock, hg]
        try simp
  | some product =>
    refine ⟨?_, ?_, ?_, ?_⟩ <;>
      simp only [StockService.create_stock_entry, StockService.create_stock, hg]
    · simp
    · simp
    · rfl
    · rfl

/-! ## Partial update frame (C9) -/

/-- Store for the C9 counterexample: one product, id 5. -/
def dbC9 : DB :=
  { DB.empty with products := [mkProduct 5 "Hamster Wheel" "WHEEL-5"] }

/-- C9 counterexample: the claim covers every subset of fields and says the
update returns an absent value, never an exception. On the empty subset the
UPDATE statement has no SET column and the call fails with an error — even
though the id resolves to an existing row — instead of returning the row or
an absent value. -/
theorem c9_counterexample :
    ProductUpdate.isEmptyValues ProductUpdate.empty = true ∧
    ProductRepository.get dbC9 5 = some (mkProduct 5 "Hamster Wheel" "WHEEL-5") ∧
    ProductRepository.update dbC9 5 ProductUpdate.empty =
      Except.error
        "ArgumentError: update() requires at least one column in the values clause" := by
  exact ⟨rfl, rfl, rfl⟩

/-- C9 amended: on every nonempty values clause, BaseRepository.update at
Product is a frame-respecting partial update: when the id resolves to no row
the result is the absent value and the store is unchanged; the returned row
is the found row with the values clause applied; rows with other ids stay in
the store untouched; and the values clause overwrites exactly the supplied
fields, leaving the id and every unsupplied field of the row as they were.
On the empty values clause — no field supplied — the call fails instead of
running. -/
theorem c9_update_frame (db : DB) (id : Nat) (values : ProductUpdate) :
    (ProductUpdate.isEmptyValues values = true →
      ProductRepository.update db id values =
        Except.error
          "ArgumentError: update() requires at least one column in the values clause") ∧
    (ProductUpdate.isEmptyValues values = false →
      ∃ db2 ret, ProductRepository.update db id values = Except.ok (db2, ret) ∧
        (ProductRepository.get db id = none → ret = none ∧ db2 = db) ∧
        ret = (ProductRepository.get db id).map
          (fun q => Product.applyValues q values) ∧
        (∀ p, p ∈ db.products → p.id ≠ id → p ∈ db2.products)) ∧
    (∀ q : Product,
      (Product.applyValues q values).id = q.id ∧
      (values.name = none → (Product.applyValues q values).name = q.name) ∧
      (∀ v, values.name = some v → (Product.applyValues q values).name = v) ∧
      (values.description = none →
        (Product.applyValues q values).description = q.description) ∧
      (∀ v, values.description = some v →
        (Product.applyValues q values).description = v) ∧
      (values.sku = none → (Product.applyValues q values).sku = q.sku) ∧
      (∀ v, values.sku = some v → (Product.applyValues q values).sku = v) ∧
      (values.category = none →
        (Product.applyValues q values).category = q.category) ∧
      (∀ v, values.category = some v →
        (Product.applyValues q values).category = v) ∧
      (values.price = none → (Product.applyValues q values).price = q.price) ∧
      (∀ v, values.price = some v → (Product.applyValues q values).price = v) ∧
      (values.cost_price = none →
        (Product.applyValues q values).cost_price = q.cost_price) ∧
      (∀ v, values.cost_price = some v →
        (Product.applyValues q values).cost_price = v) ∧
      (values.image_url = none →
        (Product.applyValues q values).image_url = q.image_url) ∧
      (∀ v, values.image_url = some v →
        (Product.applyValues q values).image_url = v) ∧
      (values.is_active = none →
        (Product.applyValues q values).is_active = q.is_active) ∧
      (∀ v, values.is_active = some v →
        (Product.applyValues q values).is_active = v)) := by
  have hfind := find?_map_update Product.id
    (fun r => Product.applyValues r values) (fun r => rfl) db.products id
  refine ⟨?_, ?_, ?_⟩
  · intro hemp
    have hbase : BaseRepository.update Product.id Product.applyValues
        ProductUpdate.isEmptyValues db.products id values =
        Except.error
          "ArgumentError: update() requires at least one column in the values clause" := by
      unfold BaseRepository.update
      rw [if_pos hemp]
    simp only [ProductRepository.update, hbase]
    rfl
  · intro hne
    have hbase : BaseRepository.update Product.id Product.applyValues
        ProductUpdate.isEmptyValues db.products id values =
        Except.ok
          (db.products.map (fun r =>
            if r.id = id then Product.applyValues r values else r),
           (db.products.map (fun r =>
             if r.id = id then Product.applyValues r values else r)).find?
             (fun r => decide (r.id = id))) := by
      unfold BaseRepository.update
      rw [if_neg (by simp [hne])]
    refine ⟨{ db with
        products := db.products.map (fun r =>
          if r.id = id then Product.applyValues r values else r) },
      (db.products.map (fun r =>
        if r.id = id then Product.applyValues r values else r)).find?
        (fun r => decide (r.id = id)), ?_, ?_, ?_, ?_⟩
    · simp only [ProductRepository.update, hbase]
      rfl
    · intro hnone
      constructor
      · rw [hfind]
        rw [show db.products.find? (fun r => decide (r.id = id)) = none
          from hnone]
        rfl
      · have hcongr : ∀ p ∈ db.products,
            (if p.id = id then Product.applyValues p values else p) = p := by
          intro p hp
          have hne2 := List.find?_eq_none.mp hnone p hp
          rw [if_neg (by simpa using hne2)]
        have hprod : db.products.map
            (fun r => if r.id = id then Product.applyValues r values else r) =
            db.products := by
          have h2 := List.map_congr_left hcongr
          simpa using h2
        rw [hprod]
    · exact hfind
    · intro p hp hne2
      exact List.mem_map.mpr ⟨p, hp, by simp [hne2]⟩
  · intro q
    refine ⟨rfl,
      fun h => by simp [Product.applyValues, h],
      fun v h => by simp [Product.applyValues, h],
      fun h => by simp [Product.applyValues, h],
      fun v h => by simp [Product.applyValues, h],
      fun h => by simp [Product.applyValues, h],
      fun v h => by simp [Product.applyValues, h],
      fun h => by simp [Product.applyValues, h],
      fun v h => by simp [Product.applyValues, h],
      fun h => by simp [Product.applyValues, h],
      fun v h => by simp [Product.applyValues, h],
      fun h => by simp [Product.applyValues, h],
      fun v h => by simp [Product.applyValues, h],
      fun h => by simp [Product.applyValues, h],
      fun v h => by simp [Product.applyValues, h],
      fun h => by simp [Product.applyValues, h],
      fun v h => by simp [Product.applyValues, h]⟩

/-! ## Sales totals ignore status (C10) -/

/-- The sum of final_amount over the sales of one status inside the same
date window. -/
def sumFinalWithStatus (sales : List Sale) (start_date end_date : Option Nat)
    (st : SaleStatus) : Rat :=
  ((sales.filter (fun s =>
      dateInRange start_date end_date s.created_at &&
        decide (s.status = st))).map (fun s => s.final_amount)).sum

/-- The date-filtered sum splits into the four per-status sums: every sale
in the window contributes, whatever its status. -/
lemma sum_final_partition (sales : List Sale) (sd ed : Option Nat) :
    ((sales.filter (fun s => dateInRange sd ed s.created_at)).map
      (fun s => s.final_amount)).sum =
      sumFinalWithStatus sales sd ed SaleStatus.pending +
      sumFinalWithStatus sales sd ed SaleStatus.completed +
      sumFinalWithStatus sales sd ed SaleStatus.cancelled +
      sumFinalWithStatus sales sd ed SaleStatus.refunded := by
  induction sales with
  | nil => simp [sumFinalWithStatus]
  | cons s t ih =>
    cases hr : dateInRange sd ed s.created_at with
    | false =>
      simp only [sumFinalWithStatus, List.filter_cons, hr, Bool.false_and,
        if_false] at ih ⊢
      exact ih
    | true =>
      cases hst : s.status <;>
        simp only [sumFinalWithStatus] at ih ⊢ <;>
        simp [List.filter_cons, hr, hst] at ih ⊢ <;>
        rw [ih] <;> ring

/-- C10: get_total_sales_amount — the service delegating to the
repository — sums final_amount over every Sale row in the optional date
window with no status filter: the total is the sum of the pending,
completed, cancelled and refunded contributions alike. -/
theorem c10_total_includes_all_statuses (db : DB)
    (start_date end_date : Option Nat) :
    SaleService.get_total_sales_amount db start_date end_date =
      SaleRepository.get_total_sales_amount db start_date end_date ∧
    SaleRepository.get_total_sales_amount db start_date end_date =
      sumFinalWithStatus db.sales start_date end_date SaleStatus.pending +
      sumFinalWithStatus db.sales start_date end_date SaleStatus.completed +
      sumFinalWithStatus db.sales start_date end_date SaleStatus.cancelled +
      sumFinalWithStatus db.sales start_date end_date SaleStatus.refunded :=
  ⟨rfl, sum_final_partition db.sales start_date end_date⟩

end POS
